import Mathlib

/-!
# Verification of the Motivational Content Automator

Shallow embedding of the repository's serverless dispatch handler
(`src/api/gemini/index.ts`), the legacy handler (`src/api/gemini.ts`),
and the storyboard orchestration flow (`src/components/StoryBoardGenerator.tsx`
and the unnamed storyboard component with zip packaging), together with
proofs and refutations of the specification's claims about them.

Conventions:
* JavaScript runtime values appearing in request payloads are modelled by
  `JsVal`, with JS truthiness transcribed as `JsVal.truthy`.
* `Date.now() / 1000` readings and token counts are rationals (`Rat`).
* The remote generative model is an oracle `Nat → ModelReply` giving the
  resolved reply of the n-th remote call of one request; the handler result
  records how many remote calls were made.  (SDK rejections, caught at the
  very end of the handler, are not modelled; every claim below concerns
  resolved replies.)
* `JSON.parse` is embedded as an executable recursive-descent parser
  `Json.parse` for the JSON fragment exercised by the handler and the
  claims (null/true/false, integers, escape-free strings, arrays, objects).
-/

/-! ## JSON values and parsing -/

/-- JSON values, as produced by the handler's uses of JSON.parse. -/
inductive Json where
  | null
  | boolVal (b : Bool)
  | numVal (n : Int)
  | strVal (s : String)
  | arr (xs : List Json)
  | obj (fields : List (String × Json))

/-- Look up a field of a JSON object field list (first match wins). -/
def lookupField : List (String × Json) → String → Option Json
  | [], _ => none
  | (k, v) :: rest, key => if k = key then some v else lookupField rest key

/-- Property access on a JSON value: `j[key]` for objects, absent otherwise. -/
def Json.getField : Json → String → Option Json
  | .obj fs, key => lookupField fs key
  | _, _ => none

/-- Length of a JSON array, absent for non-arrays. -/
def Json.arrLen : Json → Option Nat
  | .arr xs => some xs.length
  | _ => none

/-- JavaScript object-spread `{...v}`: objects keep their fields, arrays
spread to index-keyed fields, everything else spreads to nothing.
(`{...str}` spreading of the characters of a string is not modelled; the
handler only spreads values coming out of JSON.parse on object inputs.) -/
def jsSpread : Json → Json
  | .obj fs => .obj fs
  | .arr xs => .obj (xs.enum.map (fun p => (toString p.1, p.2)))
  | _ => .obj []

def isJsonWs (c : Char) : Bool :=
  c = ' ' || c = '\n' || c = '\t' || c = '\r'

def skipWs : List Char → List Char
  | [] => []
  | c :: cs => if isJsonWs c then skipWs cs else c :: cs

/-- Parse the body of a JSON string after the opening quote.  Escape
sequences are not supported (a backslash makes the parse fail). -/
def parseStrBody : List Char → Option (String × List Char)
  | [] => none
  | c :: cs =>
    if c = '"' then some ("", cs)
    else if c = '\\' then none
    else match parseStrBody cs with
      | some (s, rest) => some (String.mk (c :: s.data), rest)
      | none => none

/-- Split off a leading run of decimal digits. -/
def takeDigits : List Char → (List Char × List Char)
  | [] => ([], [])
  | c :: cs =>
    if c.isDigit then
      let p := takeDigits cs
      (c :: p.1, p.2)
    else ([], c :: cs)

def digitsToNat (ds : List Char) : Nat :=
  ds.foldl (fun acc c => acc * 10 + (c.toNat - 48)) 0

/-- `true` when the list starts with the given keyword. -/
def startsWithChars (kw : List Char) (l : List Char) : Bool :=
  kw.isPrefixOf l

mutual

/-- Fuel-indexed recursive-descent parser for one JSON value.
Returns the value and the unconsumed rest. -/
def parseVal : Nat → List Char → Option (Json × List Char)
  | 0, _ => none
  | fuel + 1, input =>
    match skipWs input with
    | [] => none
    | c :: cs =>
      if c = '"' then
        match parseStrBody cs with
        | some (s, rest) => some (.strVal s, rest)
        | none => none
      else if c = '[' then
        match skipWs cs with
        | ']' :: rest => some (.arr [], rest)
        | rest =>
          match parseItems fuel rest with
          | some (xs, rest2) => some (.arr xs, rest2)
          | none => none
      else if c = '{' then
        match skipWs cs with
        | '}' :: rest => some (.obj [], rest)
        | rest =>
          match parseFields fuel rest with
          | some (fs, rest2) => some (.obj fs, rest2)
          | none => none
      else if c = '-' then
        match takeDigits cs with
        | ([], _) => none
        | (ds, rest) => some (.numVal (-(digitsToNat ds : Int)), rest)
      else if c.isDigit then
        match takeDigits (c :: cs) with
        | (ds, rest) => some (.numVal (digitsToNat ds : Int), rest)
      else if startsWithChars ['t', 'r', 'u', 'e'] (c :: cs) then
        some (.boolVal true, (c :: cs).drop 4)
      else if startsWithChars ['f', 'a', 'l', 's', 'e'] (c :: cs) then
        some (.boolVal false, (c :: cs).drop 5)
      else if startsWithChars ['n', 'u', 'l', 'l'] (c :: cs) then
        some (.null, (c :: cs).drop 4)
      else none

/-- Comma-separated array items, consuming the closing bracket. -/
def parseItems : Nat → List Char → Option (List Json × List Char)
  | 0, _ => none
  | fuel + 1, input =>
    match parseVal fuel input with
    | none => none
    | some (x, rest) =>
      match skipWs rest with
      | ',' :: rest2 =>
        match parseItems fuel (skipWs rest2) with
        | some (xs, rest3) => some (x :: xs, rest3)
        | none => none
      | ']' :: rest2 => some ([x], rest2)
      | _ => none

/-- Comma-separated object fields, consuming the closing brace. -/
def parseFields : Nat → List Char → Option (List (String × Json) × List Char)
  | 0, _ => none
  | fuel + 1, input =>
    match skipWs input with
    | '"' :: cs =>
      match parseStrBody cs with
      | none => none
      | some (k, rest) =>
        match skipWs rest with
        | ':' :: rest2 =>
          match parseVal fuel (skipWs rest2) with
          | none => none
          | some (v, rest3) =>
            match skipWs rest3 with
            | ',' :: rest4 =>
              match parseFields fuel (skipWs rest4) with
              | some (fs, rest5) => some ((k, v) :: fs, rest5)
              | none => none
            | '}' :: rest4 => some ([(k, v)], rest4)
            | _ => none
        | _ => none
    | _ => none

end

/-- The handler's `JSON.parse(s)`: succeeds exactly when the whole string is
one JSON value (within the supported fragment). -/
def Json.parse (s : String) : Option Json :=
  match parseVal (2 * s.length + 4) s.data with
  | some (j, rest) => if (skipWs rest).isEmpty then some j else none
  | none => none

/-! ## JavaScript payload values -/

/-- A JavaScript value as it can occur in a request payload field.
`undefVal` doubles for an absent property. -/
inductive JsVal where
  | undefVal
  | nullVal
  | boolVal (b : Bool)
  | numVal (q : Rat)
  | strVal (s : String)
deriving DecidableEq, Repr

/-- JavaScript truthiness. -/
def JsVal.truthy : JsVal → Bool
  | .undefVal => false
  | .nullVal => false
  | .boolVal b => b
  | .numVal q => q != 0
  | .strVal s => s != ""

/-- `typeof v === 'string'`. -/
def JsVal.isStr : JsVal → Bool
  | .strVal _ => true
  | _ => false

/-- `typeof v === 'number'`. -/
def JsVal.isNum : JsVal → Bool
  | .numVal _ => true
  | _ => false

/-- The string content of a string value (only inspected after `isStr`). -/
def JsVal.asStr : JsVal → String
  | .strVal s => s
  | _ => ""

/-- The numeric content of a number value (only inspected after `isNum`). -/
def JsVal.asNum : JsVal → Rat
  | .numVal q => q
  | _ => 0

/-- The payload object of a request, restricted to the properties the
handler's control flow reads.  (Properties such as aspect ratio, style or
character info only feed the prompt text sent to the remote model, which is
not tracked, so they are omitted.) -/
structure Payload where
  type : JsVal := .undefVal
  quote : JsVal := .undefVal
  base64Image : JsVal := .undefVal
  prompt : JsVal := .undefVal
  topic : JsVal := .undefVal
  numScenes : JsVal := .undefVal
  visualsPrompt : JsVal := .undefVal
  imageBase64 : JsVal := .undefVal
deriving DecidableEq, Repr

/-- `const { x } = payload || {}`: property access with falsy payload
falling back to the empty object. -/
def pget (p : Option Payload) (f : Payload → JsVal) : JsVal :=
  match p with
  | some pl => f pl
  | none => .undefVal

/-! ## Rate limiter (src/api/gemini/index.ts lines 26-50) -/

/-- One per-IP token bucket of `rateLimitMap`. -/
structure Bucket where
  tokens : Rat
  lastRefill : Rat
deriving DecidableEq, Repr

/-- The in-memory `rateLimitMap`, as an association list. -/
abbrev RateMap := List (String × Bucket)

def RATE_LIMIT_CAPACITY : Rat := 60

def RATE_LIMIT_REFILL_PER_SEC : Rat := 60 / 60

/-- `rateLimitMap.get(ip)`. -/
def findBucket : RateMap → String → Option Bucket
  | [], _ => none
  | (k, b) :: rest, ip => if k = ip then some b else findBucket rest ip

/-- `rateLimitMap.set(ip, bucket)`. -/
def setBucket : RateMap → String → Bucket → RateMap
  | [], ip, b => [(ip, b)]
  | (k, b0) :: rest, ip, b =>
    if k = ip then (ip, b) :: rest else (k, b0) :: setBucket rest ip b

/-- `allowRequest(ip, cost)` at clock reading `now` (seconds): refill the
bucket (clamped to capacity, negative elapsed clamped to zero), then admit
iff at least `cost` tokens are available, debiting on admission. -/
def allowRequest (m : RateMap) (ip : String) (cost : Rat) (now : Rat) :
    Bool × RateMap :=
  let bucket := (findBucket m ip).getD
    { tokens := RATE_LIMIT_CAPACITY, lastRefill := now }
  let elapsed := max 0 (now - bucket.lastRefill)
  let refill := elapsed * RATE_LIMIT_REFILL_PER_SEC
  let tokens1 := min RATE_LIMIT_CAPACITY (bucket.tokens + refill)
  if cost ≤ tokens1 then
    (true, setBucket m ip { tokens := tokens1 - cost, lastRefill := now })
  else
    (false, setBucket m ip { tokens := tokens1, lastRefill := now })

/-- One recorded invocation of `allowRequest`. -/
structure RateCall where
  ip : String
  cost : Rat
  now : Rat
deriving DecidableEq, Repr

/-- The map after one call, discarding the admission verdict. -/
def rateStep (m : RateMap) (c : RateCall) : RateMap :=
  (allowRequest m c.ip c.cost c.now).2

/-- The map after a sequence of calls. -/
def runCalls (m : RateMap) (cs : List RateCall) : RateMap :=
  cs.foldl rateStep m

/-- Run a sequence of `(cost, now)` calls for one ip, recording each verdict. -/
def allowSeq (m : RateMap) (ip : String) : List (Rat × Rat) → List Bool × RateMap
  | [] => ([], m)
  | (c, t) :: rest =>
    let r := allowRequest m ip c t
    let rs := allowSeq r.2 ip rest
    (r.1 :: rs.1, rs.2)

/-! ## Payload validation (src/api/gemini/index.ts lines 52-94) -/

/-- `s.startsWith(p)`. -/
def strStartsWith (s p : String) : Bool := p.data.isPrefixOf s.data

/-- `s.trim()`: strip leading and trailing whitespace. -/
def strTrim (s : String) : String :=
  String.mk (((s.data.dropWhile isJsonWs).reverse.dropWhile isJsonWs).reverse)

/-- `validatePayload(action, payload)`: returns an error message or null. -/
def validatePayload (action : String) (payload : Option Payload) : Option String :=
  match payload with
  | none => none
  | some p =>
    match action with
    | "generateContent" =>
      if p.type.truthy && !(p.type == .strVal "quote") && !(p.type == .strVal "tip") then
        some "Invalid type for generateContent"
      else none
    | "generateImageWithQuote" =>
      if !p.quote.truthy || !p.quote.isStr then some "Missing or invalid quote"
      else if 500 < p.quote.asStr.length then some "Quote too long (max 500 chars)"
      else none
    | "editImage" =>
      if !p.base64Image.truthy || !p.base64Image.isStr
          || !(strStartsWith p.base64Image.asStr "data:") then
        some "Invalid base64Image"
      else if !p.prompt.truthy || !p.prompt.isStr || 1000 < p.prompt.asStr.length then
        some "Invalid prompt"
      else none
    | "generateVideoPrompts" =>
      if !p.quote.truthy || !p.quote.isStr || 1000 < p.quote.asStr.length then
        some "Invalid quote for video prompts"
      else none
    | "generateStoryElements" =>
      if !p.topic.truthy || !p.topic.isStr || 1000 < p.topic.asStr.length then
        some "Invalid topic"
      else if !p.numScenes.truthy || !p.numScenes.isNum
          || p.numScenes.asNum < 1 || 12 < p.numScenes.asNum then
        some "numScenes must be a number between 1 and 12"
      else none
    | "generateImageForScene" =>
      if !p.visualsPrompt.truthy || !p.visualsPrompt.isStr
          || 2000 < p.visualsPrompt.asStr.length then
        some "Invalid visualsPrompt"
      else none
    | _ => none

/-! ## Remote model replies and handler outcomes -/

/-- `part.inlineData` of a model reply part. -/
structure InlineData where
  data : Option String := none
  mimeType : Option String := none
deriving DecidableEq, Repr

/-- One part of `candidates[0].content.parts`. -/
structure ModelPart where
  inlineData : Option InlineData := none
deriving DecidableEq, Repr

/-- A resolved reply of `ai.models.generateContent`: the `.text` accessor and
`candidates?.[0]?.content?.parts || []`. -/
structure ModelReply where
  text : Option String := none
  parts : List ModelPart := []
deriving DecidableEq, Repr

/-- The first part carrying `inlineData`, as found by the handler's
for-loops over the reply parts. -/
def findInline : List ModelPart → Option InlineData
  | [] => none
  | part :: rest =>
    match part.inlineData with
    | some d => some d
    | none => findInline rest

/-- Template-literal interpolation of a possibly-undefined string. -/
def jsShow (o : Option String) : String := o.getD "undefined"

/-- `o || dflt` on an optional string (empty string is falsy). -/
def jsOrStr (o : Option String) (dflt : String) : String :=
  match o with
  | some s => if s = "" then dflt else s
  | none => dflt

/-- JSON body of a handler response, one constructor per `jsonResponse`
payload shape in src/api/gemini/index.ts. -/
inductive RespBody where
  | err (e : String)
  | errRaw (e raw : String)
  | textBody (t : Option String)
  | imagePair (withOverlay withoutOverlay : String)
  | edited (s : String)
  | promptsBody (prompts : Json)
  | storyBody (j : Json)
  | strategiesBody (strategies : Json)

/-- Number of scene records in a response body: the length of the `scenes`
array of a generateStoryElements 200 body, when present. -/
def RespBody.sceneRecordCount : RespBody → Option Nat
  | .storyBody j => (j.getField "scenes").bind Json.arrLen
  | _ => none

/-- An incoming request as the handler reads it: `req.method`,
`req.body.action` (empty string for a falsy action), `req.body.payload`,
and the caller identity extracted by `getIp`. -/
structure Request where
  method : String
  action : String
  payload : Option Payload
  ip : String

/-- What one handler invocation produced: HTTP status, JSON body, the number
of remote-model calls that were made, and the rate-limiter map afterwards. -/
structure HandlerOutcome where
  status : Nat
  body : RespBody
  calls : Nat
  rateMap : RateMap

/-- The per-action token costs (src/api/gemini/index.ts lines 109-117). -/
def costMap : String → Option Rat
  | "generateContent" => some 1
  | "generateImageWithQuote" => some 6
  | "editImage" => some 6
  | "generateVideoPrompts" => some 4
  | "generateStoryElements" => some 3
  | "generateImageForScene" => some 5
  | "getAutomationStrategies" => some 1
  | _ => none

/-- `costMap[action] || 1`. -/
def costOf (action : String) : Rat := (costMap action).getD 1

/-- The switch over actions (src/api/gemini/index.ts lines 126-291), entered
after rate limiting and validation with the post-debit map `m1`.  The
prompt strings assembled for the remote model are not tracked; the oracle
gives the reply of the n-th remote call. -/
def dispatch (oracle : Nat → ModelReply) (m1 : RateMap) (req : Request) :
    HandlerOutcome :=
  match req.action with
  | "generateContent" =>
    -- `const { type = 'quote' } = payload || {}` only selects the prompt text.
    ⟨200, .textBody (oracle 0).text, 1, m1⟩
  | "generateImageWithQuote" =>
    let quote := pget req.payload Payload.quote
    if !quote.truthy then ⟨400, .err "Missing quote in payload", 0, m1⟩
    else
      match findInline (oracle 0).parts with
      | none => ⟨500, .err "Failed to generate base image", 1, m1⟩
      | some d =>
        let baseImageData := jsOrStr d.data ""
        let baseMimeType := jsOrStr d.mimeType "image/png"
        let withoutOverlay := "data:" ++ baseMimeType ++ ";base64," ++ baseImageData
        match findInline (oracle 1).parts with
        | none => ⟨500, .err "Failed to add overlay to image", 2, m1⟩
        | some d2 =>
          let withOverlay := "data:" ++ jsShow d2.mimeType ++ ";base64," ++ jsShow d2.data
          ⟨200, .imagePair withOverlay withoutOverlay, 2, m1⟩
  | "editImage" =>
    let b64 := pget req.payload Payload.base64Image
    let pr := pget req.payload Payload.prompt
    if !b64.truthy || !pr.truthy then
      ⟨400, .err "Missing base64Image or prompt", 0, m1⟩
    else
      match findInline (oracle 0).parts with
      | some d =>
        ⟨200, .edited ("data:" ++ jsShow d.mimeType ++ ";base64," ++ jsShow d.data), 1, m1⟩
      | none => ⟨500, .err "No edited image returned", 1, m1⟩
  | "generateVideoPrompts" =>
    let q := pget req.payload Payload.quote
    if !q.truthy then ⟨400, .err "Missing quote", 0, m1⟩
    else
      let jsonString := ((oracle 0).text.map strTrim).getD ""
      match Json.parse jsonString with
      | some prompts => ⟨200, .promptsBody prompts, 1, m1⟩
      | none => ⟨500, .errRaw "Invalid JSON returned from model" jsonString, 1, m1⟩
  | "generateStoryElements" =>
    let t := pget req.payload Payload.topic
    if !t.truthy then ⟨400, .err "Missing topic", 0, m1⟩
    else
      let jsonString := ((oracle 0).text.map strTrim).getD ""
      match Json.parse jsonString with
      | some result => ⟨200, .storyBody (jsSpread result), 1, m1⟩
      | none => ⟨500, .errRaw "Invalid JSON returned from model" jsonString, 1, m1⟩
  | "getAutomationStrategies" =>
    let jsonString := ((oracle 0).text.map strTrim).getD ""
    match Json.parse jsonString with
    | some strategies => ⟨200, .strategiesBody strategies, 1, m1⟩
    | none => ⟨500, .errRaw "Invalid JSON returned from model" jsonString, 1, m1⟩
  | other => ⟨400, .err ("Unknown action: " ++ other), 0, m1⟩

/-- The stage of the handler following the rate-limit call: reject when the
call was denied, then validate the payload, then dispatch.  `ar` is the
verdict and updated map produced by `allowRequest`. -/
def afterRate (oracle : Nat → ModelReply) (ar : Bool × RateMap) (req : Request) :
    HandlerOutcome :=
  if !ar.1 then ⟨429, .err "Rate limit exceeded. Try again later.", 0, ar.2⟩
  else
    match validatePayload req.action req.payload with
    | some e => ⟨400, .err e, 0, ar.2⟩
    | none => dispatch oracle ar.2 req

/-- The `POST /api/gemini` handler (src/api/gemini/index.ts lines 96-296):
method check, missing-action check, configuration check, rate limiting,
payload validation, then dispatch.  `aiConfigured` models whether
`GENAI_API_KEY` was set at module load. -/
def handler (oracle : Nat → ModelReply) (aiConfigured : Bool) (m : RateMap)
    (now : Rat) (req : Request) : HandlerOutcome :=
  if req.method ≠ "POST" then ⟨405, .err "Method not allowed", 0, m⟩
  else if req.action = "" then ⟨400, .err "Missing action in request body", 0, m⟩
  else if !aiConfigured then
    ⟨500, .err "Server misconfigured: GENAI_API_KEY is not set", 0, m⟩
  else afterRate oracle (allowRequest m req.ip (costOf req.action) now) req

/-! ## Legacy handler src/api/gemini.ts: generateContent text cleaning -/

/-- The text returned by `generateContent` of src/api/gemini.ts (line 72):
`response.text.trim().replace(/"/g, '')` applied to the model reply. -/
def legacyGenerateContentText (modelText : String) : String :=
  String.mk ((strTrim modelText).data.filter (fun c => c != '"'))

/-! ## Storyboard orchestration (StoryBoardGenerator components) -/

/-- A scene card of the storyboard (src/types.ts).  `isGeneratingImage`
is a boolean with JS `undefined` read as `false`. -/
structure SceneCard where
  sceneNumber : Nat
  description : String
  visuals : String
  dialogue : String
  sound : String
  imageUrl : Option String := none
  isGeneratingImage : Bool := false
deriving DecidableEq, Repr

/-- The thumbnail card (src/types.ts). -/
structure ThumbnailData where
  prompt : String
  imageUrl : Option String := none
  isGeneratingImage : Bool := false
deriving DecidableEq, Repr

/-- The component state touched by per-card image generation. -/
structure StoryState where
  scenes : List SceneCard
  thumbnail : Option ThumbnailData
  error : Option String
deriving DecidableEq, Repr

/-- Which card `handleGenerateImage` was invoked for.  A scene target
carries the `sceneNumber` argument (`0` standing for a falsy one). -/
inductive ImageTarget where
  | thumbnail
  | scene (sceneNumber : Nat)

/-- How the awaited `generateImageForScene` call resolved. -/
inductive ImageOutcome where
  | success (imageUrl : String)
  | failure

/-- The state updates before the await: mark the targeted card as
generating (lines 89-93 of src/components/StoryBoardGenerator.tsx). -/
def startGenerating (st : StoryState) : ImageTarget → StoryState
  | .thumbnail =>
    { st with thumbnail := st.thumbnail.map (fun th => { th with isGeneratingImage := true }) }
  | .scene n =>
    if n ≠ 0 then
      { st with scenes := st.scenes.map (fun s =>
          if s.sceneNumber = n then { s with isGeneratingImage := true } else s) }
    else st

/-- The then-branch updates (lines 97-101): store the url, clear the flag. -/
def applySuccess (st : StoryState) (target : ImageTarget) (url : String) : StoryState :=
  match target with
  | .thumbnail =>
    { st with thumbnail := st.thumbnail.map (fun th =>
        { th with imageUrl := some url, isGeneratingImage := false }) }
  | .scene n =>
    if n ≠ 0 then
      { st with scenes := st.scenes.map (fun s =>
          if s.sceneNumber = n then { s with imageUrl := some url, isGeneratingImage := false } else s) }
    else st

/-- The catch-branch updates (lines 102-110): surface an error and clear
the flag of the targeted card, leaving its `imageUrl` alone. -/
def applyFailure (st : StoryState) : ImageTarget → StoryState
  | .thumbnail =>
    { st with
      error := some "Failed to generate image for thumbnail .",
      thumbnail := st.thumbnail.map (fun th => { th with isGeneratingImage := false }) }
  | .scene n =>
    { st with
      error := some ("Failed to generate image for scene "
        ++ (if n = 0 then "" else toString n) ++ "."),
      scenes :=
        if n ≠ 0 then
          st.scenes.map (fun s =>
            if s.sceneNumber = n then { s with isGeneratingImage := false } else s)
        else st.scenes }

/-- One complete `handleGenerateImage` run: mark the card generating, then
apply the resolution of the image request. -/
def handleGenerateImage (st : StoryState) (target : ImageTarget)
    (outcome : ImageOutcome) : StoryState :=
  let st1 := startGenerating st target
  match outcome with
  | .success url => applySuccess st1 target url
  | .failure => applyFailure st1 target

/-! ## Zip packaging (unnamed storyboard component, createZipBlob) -/

/-- JS truthiness of `x?.imageUrl`-style optional strings. -/
def optTruthy : Option String → Bool
  | some s => s != ""
  | none => false

/-- `String(n).padStart(2, '0')`. -/
def padStart2 (s : String) : String :=
  if s.length < 2 then String.mk (List.replicate (2 - s.length) '0') ++ s else s

/-- `thumbnail?.imageUrl`. -/
def thumbUrl (st : StoryState) : Option String :=
  st.thumbnail.bind ThumbnailData.imageUrl

/-- `allImagesGenerated` (line 112): thumbnail populated, at least one
scene, and every scene populated. -/
def allImagesGenerated (st : StoryState) : Bool :=
  optTruthy (thumbUrl st) && !st.scenes.isEmpty
    && st.scenes.all (fun s => optTruthy s.imageUrl)

/-- The archive entry name of one scene. -/
def sceneEntryName (n : Nat) : String :=
  "scene-" ++ padStart2 (toString n) ++ ".png"

/-- The entry names `createZipBlob` adds, in order: the thumbnail when
populated, then one entry per populated scene. -/
def zipEntryNames (st : StoryState) : List String :=
  (if optTruthy (thumbUrl st) then ["thumbnail.png"] else [])
    ++ st.scenes.filterMap (fun s =>
        if optTruthy s.imageUrl then some (sceneEntryName s.sceneNumber) else none)

/-- `handleDownloadAllImages` (lines 129-144): bail out unless every card is
populated, otherwise build the archive.  Only the entry names are modelled. -/
def downloadEntries (st : StoryState) : Option (List String) :=
  if !allImagesGenerated st then none else some (zipEntryNames st)

/-- The action names carrying a branch in the dispatch switch of
src/api/gemini/index.ts (lines 126-287). -/
def dispatchActions : List String :=
  ["generateContent", "generateImageWithQuote", "editImage",
   "generateVideoPrompts", "generateStoryElements", "getAutomationStrategies"]

/-- An action name that falls through to the unknown-action branch. -/
def unknownAction (a : String) : Bool := !(dispatchActions.contains a)

/-- The code's acceptance test for `numScenes`: truthy, a number, and in
[1, 12] (the negation of `!n || typeof n !== 'number' || n < 1 || n > 12`). -/
def numScenesValid (v : JsVal) : Bool :=
  v.truthy && v.isNum && !(v.asNum < 1) && !(12 < v.asNum)

/-- The bucket allowRequest stores for an admitted call: the refilled,
capacity-clamped token count minus the cost, stamped with the call time. -/
def debitedBucket (m : RateMap) (ip : String) (cost now : Rat) : Bucket where
  tokens :=
    min RATE_LIMIT_CAPACITY
      (((findBucket m ip).getD { tokens := RATE_LIMIT_CAPACITY, lastRefill := now }).tokens
        + max 0 (now
            - ((findBucket m ip).getD
                { tokens := RATE_LIMIT_CAPACITY, lastRefill := now }).lastRefill)
          * RATE_LIMIT_REFILL_PER_SEC) - cost
  lastRefill := now

/-! ## Concrete fixtures used by closed theorems and witnesses -/

/-- An oracle whose replies carry nothing usable. -/
def emptyOracle : Nat → ModelReply := fun _ => {}

/-- A valid generateImageForScene request. -/
def sceneReq : Request :=
  ⟨"POST", "generateImageForScene", some { visualsPrompt := JsVal.strVal "a castle on a hill" }, "203.0.113.7"⟩

/-- A valid generateStoryElements request asking for 3 scenes. -/
def storyReq : Request :=
  ⟨"POST", "generateStoryElements", some { topic := JsVal.strVal "a lost astronaut", numScenes := JsVal.numVal 3 }, "198.51.100.4"⟩

/-- An oracle answering with a parseable storyboard holding only 2 scenes. -/
def twoSceneOracle : Nat → ModelReply := fun _ =>
  { text := some "\x7b\"thumbnailPrompt\":\"poster\",\"scenes\":[\x7b\x7d,\x7b\x7d]\x7d" }

/-- An oracle answering with the parseable JSON text `[]`. -/
def emptyArrayOracle : Nat → ModelReply := fun _ => { text := some "[]" }

/-- A generateContent request for a tip. -/
def tipReq : Request :=
  ⟨"POST", "generateContent", some { type := JsVal.strVal "tip" }, "192.0.2.9"⟩

/-- An oracle whose text reply contains literal double quotes. -/
def quotedTextOracle : Nat → ModelReply := fun _ => { text := some "Do \"it\" now" }

/-- A valid generateImageWithQuote request. -/
def imgReq : Request :=
  ⟨"POST", "generateImageWithQuote", some { quote := JsVal.strVal "Dream big" }, "198.51.100.7"⟩

/-- An oracle whose every reply carries one inline image part. -/
def goodImageOracle : Nat → ModelReply := fun _ =>
  { parts := [{ inlineData := some { data := some "QUJD", mimeType := some "image/png" } }] }

/-- A request naming an action outside the dispatch switch. -/
def badActionReq : Request :=
  ⟨"POST", "mintNFT", some {}, "203.0.113.9"⟩

/-- A generateStoryElements request whose numScenes is the invalid 0. -/
def storyBadReq : Request :=
  ⟨"POST", "generateStoryElements", some { topic := JsVal.strVal "a quest", numScenes := JsVal.numVal 0 }, "198.51.100.5"⟩

/-- A getAutomationStrategies request (payload absent). -/
def stratReq : Request :=
  ⟨"POST", "getAutomationStrategies", none, "198.51.100.6"⟩

/-- An oracle whose text reply is not JSON. -/
def notJsonOracle : Nat → ModelReply := fun _ => { text := some "not json" }

/-- A scene card fixture. -/
def demoScene (k : Nat) (url : Option String) : SceneCard :=
  { sceneNumber := k, description := "d", visuals := "v", dialogue := "dlg", sound := "snd", imageUrl := url }

/-- A storyboard with scenes 1, 2, 4 populated and scene 3 pending. -/
def demoState : StoryState :=
  { scenes := [demoScene 1 (some "data:p1"), demoScene 2 (some "data:p2"), demoScene 3 none, demoScene 4 (some "data:p4")],
    thumbnail := some { prompt := "poster", imageUrl := some "data:pt" },
    error := none }

/-- A storyboard in which every card is populated. -/
def demoFullState : StoryState :=
  { scenes := [demoScene 1 (some "data:p1"), demoScene 2 (some "data:p2")],
    thumbnail := some { prompt := "poster", imageUrl := some "data:pt" },
    error := none }

/-! ## Theorems -/

/-- Evaluation helper: a first admissible call on a fresh map. -/
theorem allowRequest_nil_admit (ip : String) (cost now : Rat) (h : cost ≤ 60) :
    allowRequest [] ip cost now
      = (true, [(ip, { tokens := 60 - cost, lastRefill := now })]) := by
  simp [allowRequest, findBucket, setBucket, RATE_LIMIT_CAPACITY,
    RATE_LIMIT_REFILL_PER_SEC, h]

/-- Evaluation helper: on a well-formed configured request the handler is
the rate-limit call followed by `afterRate`. -/
theorem handler_post (oracle : Nat → ModelReply) (m : RateMap) (now : Rat)
    (req : Request) (hm : req.method = "POST") (hak : req.action ≠ "") :
    handler oracle true m now req
      = afterRate oracle (allowRequest m req.ip (costOf req.action) now) req := by
  simp [handler, hm, hak]

/-- C1: the spec's action catalog includes generateImageForScene (and
saveToDrive), but the dispatch switch of src/api/gemini/index.ts has no
branch for it: a well-formed generateImageForScene request — which the
handler's own cost map prices at 5 tokens and its validator accepts —
falls through to the unknown-action branch, answering
400 with the error body "Unknown action: generateImageForScene" and
making no remote-model call. -/
theorem c1_generateImageForScene_hits_unknown_action :
    (handler emptyOracle true [] 0 sceneReq).status = 400
    ∧ (handler emptyOracle true [] 0 sceneReq).body
        = RespBody.err "Unknown action: generateImageForScene"
    ∧ (handler emptyOracle true [] 0 sceneReq).calls = 0
    ∧ costMap "generateImageForScene" = some 5
    ∧ validatePayload "generateImageForScene" sceneReq.payload = none := by
  have har := allowRequest_nil_admit "203.0.113.7" (costOf "generateImageForScene") 0
    (by norm_num [costOf, costMap])
  have h1 : handler emptyOracle true [] 0 sceneReq
      = afterRate emptyOracle
          (true, [("203.0.113.7", { tokens := 60 - costOf "generateImageForScene", lastRefill := 0 })])
          sceneReq := by
    rw [handler_post emptyOracle [] 0 sceneReq rfl (by decide)]
    simp only [sceneReq]
    rw [har]
  rw [h1]
  exact ⟨rfl, rfl, rfl, rfl, rfl⟩

/-- C3 counterexample: a generateStoryElements request with the valid
numScenes 3 for which the model answers a storyboard of only 2 scenes is
answered 200 with those 2 scene records — the handler never checks the
count, so a successful response need not contain exactly numScenes
records. -/
theorem c3_two_scenes_accepted_for_three :
    (pget storyReq.payload Payload.numScenes) = JsVal.numVal 3
    ∧ (handler twoSceneOracle true [] 0 storyReq).status = 200
    ∧ (handler twoSceneOracle true [] 0 storyReq).body.sceneRecordCount = some 2 := by
  have har := allowRequest_nil_admit "198.51.100.4" (costOf "generateStoryElements") 0
    (by norm_num [costOf, costMap])
  have h1 : handler twoSceneOracle true [] 0 storyReq
      = afterRate twoSceneOracle
          (true, [("198.51.100.4", { tokens := 60 - costOf "generateStoryElements", lastRefill := 0 })])
          storyReq := by
    rw [handler_post twoSceneOracle [] 0 storyReq rfl (by decide)]
    simp only [storyReq]
    rw [har]
  rw [h1]
  exact ⟨rfl, rfl, rfl⟩

/-- C4 counterexample: a generateStoryElements reply of `[]` parses as
JSON but has no scenes array of the expected success shape; the handler
still answers 200 (with a body holding no scenes at all) instead of
failing with an invalid-upstream-response error. -/
theorem c4_shapeless_json_returns_200 :
    Json.parse "[]" = some (Json.arr [])
    ∧ (handler emptyArrayOracle true [] 0 storyReq).status = 200
    ∧ (handler emptyArrayOracle true [] 0 storyReq).body.sceneRecordCount = none := by
  have har := allowRequest_nil_admit "198.51.100.4" (costOf "generateStoryElements") 0
    (by norm_num [costOf, costMap])
  have h1 : handler emptyArrayOracle true [] 0 storyReq
      = afterRate emptyArrayOracle
          (true, [("198.51.100.4", { tokens := 60 - costOf "generateStoryElements", lastRefill := 0 })])
          storyReq := by
    rw [handler_post emptyArrayOracle [] 0 storyReq rfl (by decide)]
    simp only [storyReq]
    rw [har]
  rw [h1]
  exact ⟨rfl, rfl, rfl⟩

/-- C6 counterexample: the active handler returns the model's
generateContent reply verbatim, so a reply containing literal double
quotes is answered 200 with those double quotes still present — no
overlay-cleaning rule is applied. -/
theorem c6_double_quotes_survive :
    (handler quotedTextOracle true [] 0 tipReq).status = 200
    ∧ (handler quotedTextOracle true [] 0 tipReq).body
        = RespBody.textBody (some "Do \"it\" now")
    ∧ ("Do \"it\" now".data.contains '"') = true := by
  have har := allowRequest_nil_admit "192.0.2.9" (costOf "generateContent") 0
    (by norm_num [costOf, costMap])
  have h1 : handler quotedTextOracle true [] 0 tipReq
      = afterRate quotedTextOracle
          (true, [("192.0.2.9", { tokens := 60 - costOf "generateContent", lastRefill := 0 })])
          tipReq := by
    rw [handler_post quotedTextOracle [] 0 tipReq rfl (by decide)]
    simp only [tipReq]
    rw [har]
  rw [h1]
  exact ⟨rfl, rfl, rfl⟩

/-- C9 counterexample: for an arbitrary (here: negative) cost the claimed
bucket bound fails — a single allowRequest call of cost −61 on a fresh
bucket debits the negative cost and leaves 121 tokens, above the
capacity 60. -/
theorem c9_negative_cost_overflows_bucket :
    runCalls [] [⟨"a", -61, 0⟩] = [("a", ⟨121, 0⟩)]
    ∧ ¬ ((121 : Rat) ≤ 60) := by
  constructor
  · show rateStep [] ⟨"a", -61, 0⟩ = _
    simp [rateStep, allowRequest, findBucket, setBucket, RATE_LIMIT_CAPACITY,
      RATE_LIMIT_REFILL_PER_SEC]
    norm_num
  · norm_num

/-- The bucket bound invariant: every stored bucket holds between 0 and 60
tokens. -/
def BucketsOk (m : RateMap) : Prop :=
  ∀ p ∈ m, 0 ≤ p.2.tokens ∧ p.2.tokens ≤ 60

theorem findBucket_ok {m : RateMap} {ip : String} {b : Bucket}
    (hm : BucketsOk m) (h : findBucket m ip = some b) :
    0 ≤ b.tokens ∧ b.tokens ≤ 60 := by
  induction m with
  | nil => simp [findBucket] at h
  | cons hd tl ih =>
    rw [findBucket] at h
    by_cases hk : hd.1 = ip
    · rw [if_pos hk] at h
      obtain rfl : hd.2 = b := by simpa using h
      exact hm hd (List.mem_cons_self hd tl)
    · rw [if_neg hk] at h
      exact ih (fun p hp => hm p (List.mem_cons_of_mem hd hp)) h

theorem setBucket_ok {m : RateMap} {ip : String} {b : Bucket}
    (hm : BucketsOk m) (hb : 0 ≤ b.tokens ∧ b.tokens ≤ 60) :
    BucketsOk (setBucket m ip b) := by
  induction m with
  | nil =>
    intro p hp
    simp [setBucket] at hp
    simp [hp, hb.1, hb.2]
  | cons hd tl ih =>
    intro p hp
    rw [setBucket] at hp
    by_cases hk : hd.1 = ip
    · rw [if_pos hk] at hp
      rcases List.mem_cons.1 hp with h | h
      · simp [h, hb.1, hb.2]
      · exact hm p (List.mem_cons_of_mem hd h)
    · rw [if_neg hk] at hp
      rcases List.mem_cons.1 hp with h | h
      · exact hm p (h ▸ List.mem_cons_self hd tl)
      · exact ih (fun q hq => hm q (List.mem_cons_of_mem hd hq)) p h

theorem allowRequest_ok (m : RateMap) (ip : String) (cost now : Rat)
    (hm : BucketsOk m) (hc : 0 ≤ cost) :
    BucketsOk (allowRequest m ip cost now).2 := by
  have hb0 : 0 ≤ ((findBucket m ip).getD
        { tokens := RATE_LIMIT_CAPACITY, lastRefill := now }).tokens
      ∧ ((findBucket m ip).getD
        { tokens := RATE_LIMIT_CAPACITY, lastRefill := now }).tokens ≤ 60 := by
    cases hfb : findBucket m ip with
    | none => simp [Option.getD, RATE_LIMIT_CAPACITY]
    | some b => simpa [Option.getD] using findBucket_ok hm hfb
  rw [allowRequest]
  set b0 := (findBucket m ip).getD { tokens := RATE_LIMIT_CAPACITY, lastRefill := now } with hb0def
  set t1 := min RATE_LIMIT_CAPACITY
    (b0.tokens + max 0 (now - b0.lastRefill) * RATE_LIMIT_REFILL_PER_SEC) with ht1def
  have ht1a : 0 ≤ t1 := by
    rw [ht1def]
    refine le_min (by norm_num [RATE_LIMIT_CAPACITY]) ?_
    have : (0 : Rat) ≤ max 0 (now - b0.lastRefill) * RATE_LIMIT_REFILL_PER_SEC :=
      mul_nonneg (le_max_left 0 _) (by norm_num [RATE_LIMIT_REFILL_PER_SEC])
    linarith [hb0.1]
  have ht1b : t1 ≤ 60 := by
    rw [ht1def]
    exact le_trans (min_le_left _ _) (by norm_num [RATE_LIMIT_CAPACITY])
  by_cases h : cost ≤ t1
  · rw [if_pos h]
    exact setBucket_ok hm ⟨by simpa using sub_nonneg.2 h, by simp; linarith⟩
  · rw [if_neg h]
    exact setBucket_ok hm ⟨by simpa using ht1a, by simpa using ht1b⟩

theorem runCalls_ok (cs : List RateCall) (m : RateMap)
    (hm : BucketsOk m) (hcs : ∀ c ∈ cs, 0 ≤ c.cost) :
    BucketsOk (runCalls m cs) := by
  induction cs generalizing m with
  | nil => simpa [runCalls] using hm
  | cons c rest ih =>
    have h1 : BucketsOk (rateStep m c) :=
      allowRequest_ok m c.ip c.cost c.now hm (hcs c (List.mem_cons_self c rest))
    have h2 := ih (rateStep m c) h1 (fun d hd => hcs d (List.mem_cons_of_mem c hd))
    simpa [runCalls, List.foldl_cons] using h2

/-- C9 (amended): after any sequence of allowRequest calls with nonnegative
costs — every cost the handler ever passes is one of 1,3,4,5,6 — every
bucket stored in the map holds between 0 and 60 tokens: refill is clamped
to capacity, negative elapsed time is clamped to zero, and tokens are
debited only when at least the cost is available.  (For a negative cost the
upper bound fails, see the counterexample.) -/
theorem c9_bucket_tokens_in_range (cs : List RateCall)
    (hcs : ∀ c ∈ cs, 0 ≤ c.cost) :
    ∀ p ∈ runCalls [] cs, 0 ≤ p.2.tokens ∧ p.2.tokens ≤ 60 :=
  runCalls_ok cs [] (by intro p hp; simp at hp) hcs

/-- Witness for C9: a concrete two-call sequence satisfies the hypothesis
and the bounds. -/
theorem c9_bucket_tokens_in_range_witness :
    (∀ c ∈ [RateCall.mk "a" 6 0, RateCall.mk "b" 1 2], 0 ≤ c.cost)
    ∧ ∀ p ∈ runCalls [] [RateCall.mk "a" 6 0, RateCall.mk "b" 1 2],
        0 ≤ p.2.tokens ∧ p.2.tokens ≤ 60 := by
  constructor
  · intro c hc
    rcases List.mem_cons.1 hc with h | h
    · subst h; norm_num
    · simp at h; subst h; norm_num
  · exact c9_bucket_tokens_in_range _ (by
      intro c hc
      rcases List.mem_cons.1 hc with h | h
      · subst h; norm_num
      · simp at h; subst h; norm_num)

/-- Evaluation helper: one admissible unit-cost call on a bucket holding
`c` tokens with no elapsed time. -/
theorem allowRequest_same_time (ip : String) (t c : Rat) (h1 : 1 ≤ c) (h60 : c ≤ 60) :
    allowRequest [(ip, { tokens := c, lastRefill := t })] ip 1 t
      = (true, [(ip, { tokens := c - 1, lastRefill := t })]) := by
  simp [allowRequest, findBucket, setBucket, RATE_LIMIT_CAPACITY,
    RATE_LIMIT_REFILL_PER_SEC, min_eq_right, h60, h1]

/-- Evaluation helper: a rejected unit-cost call on a bucket holding fewer
than one token with no elapsed time. -/
theorem allowRequest_same_time_reject (ip : String) (t c : Rat) (h1 : c < 1) (h60 : c ≤ 60) :
    allowRequest [(ip, { tokens := c, lastRefill := t })] ip 1 t
      = (false, [(ip, { tokens := c, lastRefill := t })]) := by
  have hno : ¬ (1 : Rat) ≤ c := by linarith
  simp [allowRequest, findBucket, setBucket, RATE_LIMIT_CAPACITY,
    RATE_LIMIT_REFILL_PER_SEC, min_eq_right, h60, hno]

/-- A burst of `n` simultaneous unit-cost calls against a bucket of `c`
tokens all succeed and leave `c - n` tokens when `n ≤ c ≤ 60`. -/
theorem allowSeq_burst (ip : String) (t : Rat) :
    ∀ (n : Nat) (c : Rat), (n : Rat) ≤ c → c ≤ 60 →
    allowSeq [(ip, { tokens := c, lastRefill := t })] ip (List.replicate n (1, t))
      = (List.replicate n true, [(ip, { tokens := c - n, lastRefill := t })]) := by
  intro n
  induction n with
  | zero => intro c _ _; simp [allowSeq]
  | succ k ih =>
    intro c hn h60
    have hk : (k : Rat) + 1 ≤ c := by push_cast at hn; linarith
    have hr := allowRequest_same_time ip t c (by linarith [Nat.cast_nonneg (α := Rat) k]) h60
    rw [List.replicate_succ, allowSeq, hr]
    have hrec := ih (c - 1) (by linarith) (by linarith)
    rw [hrec]
    have hc : c - 1 - (k : Rat) = c - ((k : Nat) + 1 : Nat) := by push_cast; ring
    rw [hc]
    simp [List.replicate_succ]

/-- `allowSeq` splits over list append. -/
theorem allowSeq_append (m : RateMap) (ip : String) (l1 l2 : List (Rat × Rat)) :
    allowSeq m ip (l1 ++ l2)
      = ((allowSeq m ip l1).1 ++ (allowSeq (allowSeq m ip l1).2 ip l2).1,
         (allowSeq (allowSeq m ip l1).2 ip l2).2) := by
  induction l1 generalizing m with
  | nil => simp [allowSeq]
  | cons hd tl ih =>
    cases hd
    simp [allowSeq, ih]

/-- C5: from a fresh bucket, 61 unit-cost requests issued at one instant
`t` (hence within one second) admit exactly the first 60 and reject the
61st with the bucket empty; a request after waiting `s` seconds with
1 ≤ s < 2 is admitted, and a second immediate request at that same moment
is rejected again. -/
theorem c5_burst_and_refill (ip : String) (t s : Rat) (hs1 : 1 ≤ s) (hs2 : s < 2) :
    (allowSeq [] ip (List.replicate 61 (1, t))).1 = List.replicate 60 true ++ [false]
    ∧ (allowSeq [] ip (List.replicate 61 (1, t))).2
        = [(ip, { tokens := 0, lastRefill := t })]
    ∧ (allowRequest [(ip, { tokens := 0, lastRefill := t })] ip 1 (t + s)).1 = true
    ∧ (allowRequest
        (allowRequest [(ip, { tokens := 0, lastRefill := t })] ip 1 (t + s)).2
        ip 1 (t + s)).1 = false := by
  have h0 : allowRequest [] ip 1 t = (true, [(ip, { tokens := 59, lastRefill := t })]) := by
    have := allowRequest_nil_admit ip 1 t (by norm_num)
    rw [this]
    norm_num
  have hmid := allowSeq_burst ip t 59 59 (by norm_num) (by norm_num)
  have hmid2 : allowSeq [(ip, { tokens := 59, lastRefill := t })] ip
      (List.replicate 59 (1, t))
      = (List.replicate 59 true, [(ip, { tokens := 0, lastRefill := t })]) := by
    rw [hmid]; norm_num
  have hlast := allowRequest_same_time_reject ip t 0 (by norm_num) (by norm_num)
  have hfull : allowSeq [] ip (List.replicate 61 (1, t))
      = (true :: (List.replicate 59 true ++ [false]),
         [(ip, { tokens := 0, lastRefill := t })]) := by
    rw [show (61 : Nat) = 59 + 1 + 1 from rfl]
    rw [List.replicate_succ, allowSeq, h0]
    rw [List.replicate_succ', allowSeq_append, hmid2]
    simp [allowSeq, hlast]
  have hnext : allowRequest [(ip, { tokens := 0, lastRefill := t })] ip 1 (t + s)
      = (true, [(ip, { tokens := s - 1, lastRefill := t + s })]) := by
    have he : t + s - t = s := by ring
    have hmax : max (0 : Rat) s = s := max_eq_right (by linarith)
    have hmul : s * RATE_LIMIT_REFILL_PER_SEC = s := by
      rw [RATE_LIMIT_REFILL_PER_SEC]; norm_num
    have hmin : min RATE_LIMIT_CAPACITY s = s := by
      rw [RATE_LIMIT_CAPACITY]; exact min_eq_right (by linarith)
    have hcap : (1 : Rat) ≤ RATE_LIMIT_CAPACITY := by norm_num [RATE_LIMIT_CAPACITY]
    simp [allowRequest, findBucket, setBucket, he, hmax, hmul, hmin, hcap, hs1]
  have hnext2 : (allowRequest [(ip, { tokens := s - 1, lastRefill := t + s })] ip 1 (t + s)).1
      = false := by
    rw [allowRequest_same_time_reject ip (t + s) (s - 1) (by linarith) (by linarith)]
  refine ⟨?_, ?_, ?_, ?_⟩
  · rw [hfull]; simp [List.replicate_succ]
  · rw [hfull]
  · rw [hnext]
  · rw [hnext, hnext2]

/-- Witness for C5 at ip "a", burst instant 0 and wait 1 second. -/
theorem c5_burst_and_refill_witness :
    (allowSeq [] "a" (List.replicate 61 (1, 0))).1 = List.replicate 60 true ++ [false]
    ∧ (allowSeq [] "a" (List.replicate 61 (1, 0))).2
        = [("a", { tokens := 0, lastRefill := 0 })]
    ∧ (allowRequest [("a", { tokens := 0, lastRefill := 0 })] "a" 1 (0 + 1)).1 = true
    ∧ (allowRequest
        (allowRequest [("a", { tokens := 0, lastRefill := 0 })] "a" 1 (0 + 1)).2
        "a" 1 (0 + 1)).1 = false :=
  c5_burst_and_refill "a" 0 1 (by norm_num) (by norm_num)

/-- The rate map stored after an admitted call: refilled bucket debited by
the cost. -/
theorem allowRequest_admit_map (m : RateMap) (ip : String) (cost now : Rat)
    (h : (allowRequest m ip cost now).1 = true) :
    (allowRequest m ip cost now).2 = setBucket m ip (debitedBucket m ip cost now) := by
  rw [debitedBucket]
  rw [allowRequest] at h ⊢
  split at h
  · next hc => rw [if_pos hc]
  · simp at h

/-- `setBucket` stores the bucket under the key it was given. -/
theorem findBucket_setBucket (m : RateMap) (ip : String) (b : Bucket) :
    findBucket (setBucket m ip b) ip = some b := by
  induction m with
  | nil => simp [setBucket, findBucket]
  | cons hd tl ih =>
    rw [setBucket]
    by_cases hk : hd.1 = ip
    · rw [if_pos hk]; simp [findBucket]
    · rw [if_neg hk]; rw [findBucket, if_neg hk]; exact ih

/-- C10: the handler debits the caller's bucket before payload validation
and before dispatch: a POST request that passes the rate check but is then
rejected 400 — by a validation error or by the unknown-action branch —
leaves the rate map exactly as allowRequest set it, with the caller's
refilled bucket already debited by the action's cost (the cost-map value,
or 1 for an action outside the cost map), no remote call made and nothing
refunded. -/
theorem c10_debit_precedes_rejection (oracle : Nat → ModelReply) (m : RateMap)
    (now : Rat) (req : Request) (hm : req.method = "POST") (hak : req.action ≠ "")
    (hrate : (allowRequest m req.ip (costOf req.action) now).1 = true)
    (hrej : validatePayload req.action req.payload ≠ none
            ∨ unknownAction req.action = true) :
    (handler oracle true m now req).status = 400
    ∧ (handler oracle true m now req).calls = 0
    ∧ (handler oracle true m now req).rateMap
        = (allowRequest m req.ip (costOf req.action) now).2
    ∧ findBucket (handler oracle true m now req).rateMap req.ip
        = some (debitedBucket m req.ip (costOf req.action) now) := by
  have hmap : findBucket (allowRequest m req.ip (costOf req.action) now).2 req.ip
      = some (debitedBucket m req.ip (costOf req.action) now) := by
    rw [allowRequest_admit_map m req.ip (costOf req.action) now hrate,
      findBucket_setBucket]
  rw [handler_post oracle m now req hm hak]
  simp only [afterRate, hrate, Bool.not_true, Bool.false_eq_true, if_false]
  rcases hrej with hv | hu
  · obtain ⟨e, he⟩ := Option.ne_none_iff_exists'.1 hv
    rw [he]
    exact ⟨rfl, rfl, rfl, hmap⟩
  · cases hvv : validatePayload req.action req.payload with
    | some e => exact ⟨rfl, rfl, rfl, hmap⟩
    | none =>
      have hd : dispatch oracle (allowRequest m req.ip (costOf req.action) now).2 req
          = ⟨400, RespBody.err ("Unknown action: " ++ req.action), 0,
              (allowRequest m req.ip (costOf req.action) now).2⟩ := by
        simp only [dispatch]
        split
        <;> first
          | rfl
          | (rename_i heq
             rw [heq] at hu
             simp [unknownAction, dispatchActions] at hu)
      rw [hd]
      exact ⟨rfl, rfl, rfl, hmap⟩

/-- Witness for C10: an unknown-action request against a fresh bucket is
rejected 400 with one token already gone. -/
theorem c10_debit_precedes_rejection_witness :
    (handler emptyOracle true [] 0 badActionReq).status = 400
    ∧ (handler emptyOracle true [] 0 badActionReq).calls = 0
    ∧ (handler emptyOracle true [] 0 badActionReq).rateMap
        = (allowRequest [] badActionReq.ip (costOf badActionReq.action) 0).2
    ∧ findBucket (handler emptyOracle true [] 0 badActionReq).rateMap badActionReq.ip
        = some (debitedBucket [] badActionReq.ip (costOf badActionReq.action) 0) :=
  c10_debit_precedes_rejection emptyOracle [] 0 badActionReq rfl (by decide)
    (by rw [show badActionReq.ip = "203.0.113.9" from rfl,
          show badActionReq.action = "mintNFT" from rfl,
          allowRequest_nil_admit "203.0.113.9" (costOf "mintNFT") 0
            (by rw [show costOf "mintNFT" = 1 from rfl]; norm_num)])
    (Or.inr (by decide))

/-- C2: generateImageWithQuote is all-or-nothing.  Whatever the oracle
replies and whatever the handler state, the outcome is either a 200
response whose body carries both withOverlay and withoutOverlay as data
URIs, or a non-200 response whose body is a bare error record carrying
neither image — never exactly one of the two. -/
theorem c2_image_pair_all_or_nothing (oracle : Nat → ModelReply) (aiCfg : Bool)
    (m : RateMap) (now : Rat) (req : Request)
    (ha : req.action = "generateImageWithQuote") :
    (((handler oracle aiCfg m now req).status = 200
      ∧ ∃ r1 r2, (handler oracle aiCfg m now req).body
          = RespBody.imagePair ("data:" ++ r1) ("data:" ++ r2))
    ∨ ((handler oracle aiCfg m now req).status ≠ 200
      ∧ ∃ e, (handler oracle aiCfg m now req).body = RespBody.err e))
    ∧ ((findInline (oracle 0).parts = none ∨ findInline (oracle 1).parts = none) →
        (handler oracle aiCfg m now req).status ≠ 200
        ∧ ∃ e, (handler oracle aiCfg m now req).body = RespBody.err e) := by
  simp only [handler]
  by_cases hm : req.method ≠ "POST"
  · rw [if_pos hm]
    exact ⟨Or.inr ⟨by norm_num, _, rfl⟩, fun _ => ⟨by norm_num, _, rfl⟩⟩
  · rw [if_neg hm]
    have hak : ¬ req.action = "" := by rw [ha]; simp
    rw [if_neg hak]
    cases aiCfg with
    | false =>
      simp only [Bool.not_false, if_true]
      exact ⟨Or.inr ⟨by norm_num, _, rfl⟩, fun _ => ⟨by norm_num, _, rfl⟩⟩
    | true =>
      simp only [Bool.not_true, Bool.false_eq_true, if_false, afterRate]
      cases har : (allowRequest m req.ip (costOf req.action) now).1 with
      | false =>
        simp only [Bool.not_false, if_true]
        exact ⟨Or.inr ⟨by norm_num, _, rfl⟩, fun _ => ⟨by norm_num, _, rfl⟩⟩
      | true =>
        simp only [Bool.not_true, Bool.false_eq_true, if_false]
        cases hv : validatePayload req.action req.payload with
        | some e => exact ⟨Or.inr ⟨by norm_num, _, rfl⟩, fun _ => ⟨by norm_num, _, rfl⟩⟩
        | none =>
          simp only [dispatch, ha]
          cases hq : (pget req.payload Payload.quote).truthy with
          | false =>
            simp only [Bool.not_false, if_true]
            exact ⟨Or.inr ⟨by norm_num, _, rfl⟩, fun _ => ⟨by norm_num, _, rfl⟩⟩
          | true =>
            simp only [Bool.not_true, Bool.false_eq_true, if_false]
            cases hbase : findInline (oracle 0).parts with
            | none => exact ⟨Or.inr ⟨by norm_num, _, rfl⟩, fun _ => ⟨by norm_num, _, rfl⟩⟩
            | some d =>
              cases hov : findInline (oracle 1).parts with
              | none => exact ⟨Or.inr ⟨by norm_num, _, rfl⟩, fun _ => ⟨by norm_num, _, rfl⟩⟩
              | some d2 =>
                refine ⟨Or.inl ⟨rfl,
                  jsShow d2.mimeType ++ (";base64," ++ jsShow d2.data),
                  jsOrStr d.mimeType "image/png" ++ (";base64," ++ jsOrStr d.data ""), ?_⟩,
                  fun hcontra => ?_⟩
                · simp [String.append_assoc]
                · rcases hcontra with h | h
                  · exact Option.noConfusion h
                  · exact Option.noConfusion h

/-- Witness for C2: the all-or-nothing disjunction instantiated at a
well-formed request and an oracle that yields an inline image on both
calls (where the 200 side holds). -/
theorem c2_image_pair_all_or_nothing_witness :
    (((handler goodImageOracle true [] 0 imgReq).status = 200
      ∧ ∃ r1 r2, (handler goodImageOracle true [] 0 imgReq).body
          = RespBody.imagePair ("data:" ++ r1) ("data:" ++ r2))
    ∨ ((handler goodImageOracle true [] 0 imgReq).status ≠ 200
      ∧ ∃ e, (handler goodImageOracle true [] 0 imgReq).body = RespBody.err e))
    ∧ ((findInline (goodImageOracle 0).parts = none
        ∨ findInline (goodImageOracle 1).parts = none) →
        (handler goodImageOracle true [] 0 imgReq).status ≠ 200
        ∧ ∃ e, (handler goodImageOracle true [] 0 imgReq).body = RespBody.err e) :=
  c2_image_pair_all_or_nothing goodImageOracle true [] 0 imgReq rfl

/-- Boolean shape of the validator's numScenes rejection test. -/
theorem bool_reject_iff (a b c d : Bool) :
    (!a || !b || c || d) = !(a && b && !c && !d) := by
  cases a <;> cases b <;> cases c <;> cases d <;> rfl

/-- C3 (amended): a generateStoryElements request whose numScenes fails
the code's test (truthy number in [1,12]) is answered 400 with no remote
call; one that passes validation and has a truthy topic is answered 200
with the parsed model reply spread into the body as-is — the handler never
compares the reply's scenes count against numScenes. -/
theorem c3_numscenes_reject_and_passthrough (oracle : Nat → ModelReply)
    (m : RateMap) (now : Rat) (req : Request) (hm : req.method = "POST")
    (ha : req.action = "generateStoryElements")
    (hrate : (allowRequest m req.ip (costOf req.action) now).1 = true) :
    (numScenesValid (pget req.payload Payload.numScenes) = false →
      (handler oracle true m now req).status = 400
      ∧ (handler oracle true m now req).calls = 0)
    ∧ (∀ j, validatePayload req.action req.payload = none →
        (pget req.payload Payload.topic).truthy = true →
        Json.parse (((oracle 0).text.map strTrim).getD "") = some j →
        (handler oracle true m now req).status = 200
        ∧ (handler oracle true m now req).body = RespBody.storyBody (jsSpread j)) := by
  have hak : req.action ≠ "" := by rw [ha]; simp
  rw [handler_post oracle m now req hm hak]
  simp only [afterRate, hrate, Bool.not_true, Bool.false_eq_true, if_false]
  constructor
  · intro hn
    cases hv : validatePayload req.action req.payload with
    | some e => exact ⟨rfl, rfl⟩
    | none =>
      simp only [dispatch, ha]
      cases hp : req.payload with
      | none => simp [pget, JsVal.truthy]
      | some p =>
        exfalso
        rw [ha, hp] at hv
        rw [hp] at hn
        simp only [validatePayload] at hv
        rw [bool_reject_iff] at hv
        have hn2 : numScenesValid p.numScenes = false := hn
        rw [show (p.numScenes.truthy && p.numScenes.isNum
              && !decide (p.numScenes.asNum < 1)
              && !decide (12 < p.numScenes.asNum)) = numScenesValid p.numScenes from rfl,
          hn2] at hv
        split at hv
        · exact Option.noConfusion hv
        · simp at hv
  · intro j hv ht hj
    rw [hv]
    simp only [dispatch, ha, ht, Bool.not_true, Bool.false_eq_true, if_false]
    rw [hj]
    exact ⟨rfl, rfl⟩

/-- Witness for C3 (amended), rejection half: numScenes 0 is answered 400
with no remote call. -/
theorem c3_numscenes_reject_witness :
    (handler emptyOracle true [] 0 storyBadReq).status = 400
    ∧ (handler emptyOracle true [] 0 storyBadReq).calls = 0 :=
  (c3_numscenes_reject_and_passthrough emptyOracle [] 0 storyBadReq rfl rfl
    (by rw [show storyBadReq.ip = "198.51.100.5" from rfl,
          show storyBadReq.action = "generateStoryElements" from rfl,
          allowRequest_nil_admit "198.51.100.5" (costOf "generateStoryElements") 0
            (by rw [show costOf "generateStoryElements" = 3 from rfl]; norm_num)])).1
    (by rfl)

/-- C4 (amended): for the structured actions (generateVideoPrompts,
generateStoryElements, getAutomationStrategies) the only upstream check is
JSON.parse: an unparsable reply is answered 500 "Invalid JSON returned
from model" with the raw text attached, while any reply that parses —
whatever its shape — is answered 200; no field of the expected success
shape is ever verified. -/
theorem c4_parse_is_only_upstream_check (oracle : Nat → ModelReply)
    (m : RateMap) (now : Rat) (req : Request) (hm : req.method = "POST")
    (ha : req.action = "generateVideoPrompts" ∨ req.action = "generateStoryElements"
          ∨ req.action = "getAutomationStrategies")
    (hrate : (allowRequest m req.ip (costOf req.action) now).1 = true)
    (hv : validatePayload req.action req.payload = none)
    (hq : req.action = "generateVideoPrompts" →
          (pget req.payload Payload.quote).truthy = true)
    (ht : req.action = "generateStoryElements" →
          (pget req.payload Payload.topic).truthy = true) :
    (Json.parse (((oracle 0).text.map strTrim).getD "") = none →
      (handler oracle true m now req).status = 500
      ∧ (handler oracle true m now req).body
          = RespBody.errRaw "Invalid JSON returned from model"
              (((oracle 0).text.map strTrim).getD ""))
    ∧ (∀ j, Json.parse (((oracle 0).text.map strTrim).getD "") = some j →
        (handler oracle true m now req).status = 200) := by
  have hak : req.action ≠ "" := by
    rcases ha with h | h | h <;> rw [h] <;> simp
  rw [handler_post oracle m now req hm hak]
  simp only [afterRate, hrate, Bool.not_true, Bool.false_eq_true, if_false]
  rw [hv]
  rcases ha with hai | hai | hai
  · simp only [dispatch, hai, hq hai, Bool.not_true, Bool.false_eq_true, if_false]
    refine ⟨fun hpn => ?_, fun j hpj => ?_⟩
    · rw [hpn]; exact ⟨rfl, rfl⟩
    · rw [hpj]
  · simp only [dispatch, hai, ht hai, Bool.not_true, Bool.false_eq_true, if_false]
    refine ⟨fun hpn => ?_, fun j hpj => ?_⟩
    · rw [hpn]; exact ⟨rfl, rfl⟩
    · rw [hpj]
  · simp only [dispatch, hai]
    refine ⟨fun hpn => ?_, fun j hpj => ?_⟩
    · rw [hpn]; exact ⟨rfl, rfl⟩
    · rw [hpj]

/-- Witness for C4 (amended): a getAutomationStrategies request whose
model reply is not JSON is answered 500 with the raw text. -/
theorem c4_parse_is_only_upstream_check_witness :
    (handler notJsonOracle true [] 0 stratReq).status = 500
    ∧ (handler notJsonOracle true [] 0 stratReq).body
        = RespBody.errRaw "Invalid JSON returned from model" "not json" :=
  (c4_parse_is_only_upstream_check notJsonOracle [] 0 stratReq rfl
    (Or.inr (Or.inr rfl))
    (by rw [show stratReq.ip = "198.51.100.6" from rfl,
          show stratReq.action = "getAutomationStrategies" from rfl,
          allowRequest_nil_admit "198.51.100.6" (costOf "getAutomationStrategies") 0
            (by rw [show costOf "getAutomationStrategies" = 1 from rfl]; norm_num)])
    rfl
    (fun h => absurd h (by decide))
    (fun h => absurd h (by decide))).1 rfl

/-- Filtering out the double-quote character leaves none behind. -/
theorem filter_no_quote (l : List Char) :
    ((l.filter (fun c => c != '"')).contains '"') = false := by
  induction l with
  | nil => rfl
  | cons c rest ih =>
    rw [List.filter_cons]
    by_cases hc : (c != '"') = true
    · rw [if_pos hc]
      have hne : ¬ ('"' : Char) = c := fun he => (bne_iff_ne.1 hc) he.symm
      simp [List.contains_cons, hne, ih]
    · rw [if_neg hc]
      exact ih

/-- C6 (amended): the double-quote-stripping overlay-cleaning rule holds of
the legacy handler src/api/gemini.ts, whose generateContent strips every
double quote from the trimmed model reply; the active handler
src/api/gemini/index.ts instead returns the model reply verbatim in a 200
response, so its text can contain double quotes (and can be empty). -/
theorem c6_legacy_strips_active_verbatim :
    (∀ s : String, ((legacyGenerateContentText s).data.contains '"') = false)
    ∧ (∀ oracle : Nat → ModelReply,
        (handler oracle true [] 0 tipReq).status = 200
        ∧ (handler oracle true [] 0 tipReq).body = RespBody.textBody ((oracle 0).text)) := by
  constructor
  · intro s
    exact filter_no_quote (strTrim s).data
  · intro oracle
    rw [handler_post oracle [] 0 tipReq rfl (by decide)]
    rw [show tipReq.ip = "192.0.2.9" from rfl,
      show tipReq.action = "generateContent" from rfl,
      allowRequest_nil_admit "192.0.2.9" (costOf "generateContent") 0
        (by rw [show costOf "generateContent" = 1 from rfl]; norm_num)]
    exact ⟨rfl, rfl⟩

/-- Marking a scene generating and then clearing the flag is the same as
just clearing the flag; all other cards pass through untouched. -/
theorem map_set_then_reset (l : List SceneCard) (n : Nat) :
    ((l.map (fun s => if s.sceneNumber = n then { s with isGeneratingImage := true } else s)).map
        (fun s => if s.sceneNumber = n then { s with isGeneratingImage := false } else s))
      = l.map (fun s => if s.sceneNumber = n then { s with isGeneratingImage := false } else s) := by
  induction l with
  | nil => rfl
  | cons c rest ih =>
    simp only [List.map_cons, ih]
    by_cases hc : c.sceneNumber = n
    · simp [hc]
    · simp [hc]

/-- C7: a failing image request is isolated to its card.  For a scene
target with truthy sceneNumber n, the failure run leaves the scene list as
the original list with only the card(s) numbered n changed — and changed
only by resetting isGeneratingImage to false, imageUrl untouched — the
thumbnail untouched, and an error surfaced; for the thumbnail target the
scene list is untouched and only the thumbnail's flag is reset. -/
theorem c7_failed_card_is_isolated (st : StoryState) :
    (∀ n, n ≠ 0 →
      (handleGenerateImage st (.scene n) .failure).scenes
          = st.scenes.map (fun s =>
              if s.sceneNumber = n then { s with isGeneratingImage := false } else s)
      ∧ (handleGenerateImage st (.scene n) .failure).thumbnail = st.thumbnail
      ∧ (handleGenerateImage st (.scene n) .failure).error
          = some ("Failed to generate image for scene " ++ toString n ++ "."))
    ∧ ((handleGenerateImage st .thumbnail .failure).scenes = st.scenes
      ∧ (handleGenerateImage st .thumbnail .failure).thumbnail
          = st.thumbnail.map (fun th => { th with isGeneratingImage := false })) := by
  constructor
  · intro n hn
    simp only [handleGenerateImage, startGenerating, applyFailure, if_pos hn, if_neg hn]
    refine ⟨map_set_then_reset st.scenes n, ?_, ?_⟩ <;> first | rfl | trivial
  · constructor
    · rfl
    · simp only [handleGenerateImage, startGenerating, applyFailure]
      cases st.thumbnail with
      | none => rfl
      | some th => rfl

/-- Witness for C7: scene 3 of the demo storyboard fails while 1, 2, 4 are
populated. -/
theorem c7_failed_card_is_isolated_witness :
    ((handleGenerateImage demoState (.scene 3) .failure).scenes
        = demoState.scenes.map (fun s =>
            if s.sceneNumber = 3 then { s with isGeneratingImage := false } else s)
      ∧ (handleGenerateImage demoState (.scene 3) .failure).thumbnail = demoState.thumbnail
      ∧ (handleGenerateImage demoState (.scene 3) .failure).error
          = some ("Failed to generate image for scene " ++ toString 3 ++ "."))
    ∧ ((handleGenerateImage demoState .thumbnail .failure).scenes = demoState.scenes
      ∧ (handleGenerateImage demoState .thumbnail .failure).thumbnail
          = demoState.thumbnail.map (fun th => { th with isGeneratingImage := false })) :=
  ⟨(c7_failed_card_is_isolated demoState).1 3 (by decide),
   (c7_failed_card_is_isolated demoState).2⟩

/-- When every scene is populated, the archive gets exactly one entry per
scene, in scene-list order. -/
theorem filterMap_entries_of_all (l : List SceneCard)
    (h : ∀ s ∈ l, optTruthy s.imageUrl = true) :
    (l.filterMap (fun s =>
        if optTruthy s.imageUrl then some (sceneEntryName s.sceneNumber) else none))
      = l.map (fun s => sceneEntryName s.sceneNumber) := by
  induction l with
  | nil => rfl
  | cons c rest ih =>
    rw [List.filterMap_cons, List.map_cons]
    rw [h c (List.mem_cons_self c rest)]
    rw [ih (fun s hs => h s (List.mem_cons_of_mem c hs))]
    simp

/-- Two scene lists agreeing on scene numbers and populated-ness produce
the same archive entries. -/
theorem filterMap_entries_shape (l1 l2 : List SceneCard)
    (hsc : List.Forall₂ (fun a b => a.sceneNumber = b.sceneNumber
        ∧ optTruthy a.imageUrl = optTruthy b.imageUrl) l1 l2) :
    l1.filterMap (fun s =>
        if optTruthy s.imageUrl then some (sceneEntryName s.sceneNumber) else none)
      = l2.filterMap (fun s =>
        if optTruthy s.imageUrl then some (sceneEntryName s.sceneNumber) else none) := by
  induction hsc with
  | nil => rfl
  | cons hab _ ih =>
    rw [List.filterMap_cons, List.filterMap_cons, hab.1, hab.2, ih]

/-- C8: archive packaging is deterministic and shape-driven.  (i) When some
card is unpopulated, packaging refuses to run.  (ii) When every card is
populated the entry list is exactly the thumbnail entry followed by one
`scene-NN.png` entry per scene, NN the sceneNumber zero-padded to 2
digits.  (iii) The entry names depend only on which cards are populated
and their scene numbers — not on the image data, so not on the order or
outcome history of the generations that produced it — hence rebuilding
any number of times from the same populated storyboard yields the same
names. -/
theorem c8_zip_entry_names_deterministic (st : StoryState) :
    (allImagesGenerated st = false → downloadEntries st = none)
    ∧ (allImagesGenerated st = true →
        downloadEntries st
          = some ("thumbnail.png" :: st.scenes.map (fun s => sceneEntryName s.sceneNumber)))
    ∧ (∀ st2 : StoryState, optTruthy (thumbUrl st) = optTruthy (thumbUrl st2) →
        List.Forall₂ (fun a b => a.sceneNumber = b.sceneNumber
            ∧ optTruthy a.imageUrl = optTruthy b.imageUrl) st.scenes st2.scenes →
        zipEntryNames st = zipEntryNames st2) := by
  refine ⟨?_, ?_, ?_⟩
  · intro h
    simp [downloadEntries, h]
  · intro h
    have hcomp := h
    simp only [allImagesGenerated, Bool.and_eq_true, List.all_eq_true] at hcomp
    obtain ⟨⟨hth, _⟩, hall⟩ := hcomp
    simp only [downloadEntries, h, Bool.not_true, Bool.false_eq_true, if_false]
    simp only [zipEntryNames, hth, if_true]
    rw [filterMap_entries_of_all st.scenes (fun s hs => by simpa using hall s hs)]
    rfl
  · intro st2 hth hsc
    simp only [zipEntryNames]
    rw [hth, filterMap_entries_shape st.scenes st2.scenes hsc]

/-- Witness for C8: the fully populated demo storyboard packages to the
thumbnail entry plus zero-padded scene entries. -/
theorem c8_zip_entry_names_deterministic_witness :
    downloadEntries demoFullState
      = some ("thumbnail.png"
          :: demoFullState.scenes.map (fun s => sceneEntryName s.sceneNumber))
    ∧ downloadEntries demoFullState
      = some ["thumbnail.png", "scene-01.png", "scene-02.png"] :=
  ⟨(c8_zip_entry_names_deterministic demoFullState).2.1 (by rfl),
   by rw [(c8_zip_entry_names_deterministic demoFullState).2.1 (by rfl)]; rfl⟩
